import Mathlib

/-!
Shallow embedding of the Tock `kv_store` capsule
(`src/capsules/src/kv_store.rs`): the TicKV flash-controller adapter
(`TicKVFlashCtrl`) and the system-call driver (`KVStoreDriver`).

Modelling conventions:
* A Rust panic (`unwrap` on an empty cell, `unreachable!`, `panic!`,
  out-of-bounds slice indexing) is `Option.none` in the result type.
* The TicKV engine (`AsyncTicKV` / `TicKV`) is an external library and a
  black box: each call into it is represented by an oracle argument of
  type `Except ErrorCode SuccessCode` giving the result the engine
  returned.  The driver's own state handling around that result is
  embedded faithfully.
* A flash page and an app slice are `List Nat` (byte lists); hardware
  dispatch success is a `Bool` argument; the page operations the adapter
  hands to the flash device are collected in a `List FlashOp`.
* `usize`/`isize` casts (`reg as isize`, `reg as usize`) are modelled by
  explicit wrap-around at 2^64.
-/

namespace KVStore

/-- `tickv::success_codes::SuccessCode`. -/
inductive SuccessCode where
  | complete
  | written
  | queued
  deriving DecidableEq, Repr

/-- `tickv::error_codes::ErrorCode` (the variants this capsule matches on,
plus representative terminal errors). -/
inductive ErrorCode where
  | readNotReady (region : Nat)
  | writeNotReady (address : Nat)
  | eraseNotReady (region : Nat)
  | readFail
  | writeFail
  | eraseFail
  | keyNotFound
  | corruptData
  deriving DecidableEq, Repr

/-- Result of a call into the TicKV engine (`Result<SuccessCode, ErrorCode>`). -/
abbrev EngineResult := Except ErrorCode SuccessCode

/-- Result of a flash-controller operation (`Result<(), ErrorCode>`). -/
abbrev CtrlResult := Except ErrorCode Unit

/-- Tock `ReturnCode` values used by this capsule. -/
inductive ReturnCode where
  | SUCCESS
  | FAIL
  | EBUSY
  | ENOSUPPORT
  deriving DecidableEq, Repr

/-- The capsule's `State` enum: the adapter's record of which hardware
completion is pending attribution (`ReadComplete` carries an `isize`). -/
inductive State where
  | none
  | readComplete (region : Int)
  | writeComplete (address : Nat)
  | eraseComplete (region : Nat)
  deriving DecidableEq, Repr

/-- The capsule's `Operation` enum. -/
inductive Operation where
  | none
  | init
  | getKey
  deriving DecidableEq, Repr

/-- `usize as isize` on a 64-bit target. -/
def isizeOfUsize (n : Nat) : Int :=
  if n < 2 ^ 63 then (n : Int) else (n : Int) - 2 ^ 64

/-- `isize as usize` on a 64-bit target. -/
def usizeOfIsize (i : Int) : Nat :=
  (i % 2 ^ 64).toNat

/-- A page operation handed to the flash device (`kernel::hil::flash`). -/
inductive FlashOp where
  | readPage (pageIndex : Nat)
  | writePage (pageIndex : Nat) (data : List Nat)
  | erasePage (pageIndex : Nat)
  deriving DecidableEq, Repr

/-- `TicKVFlashCtrl`: the flash-controller adapter.  `data_buffer` is a
`TakeCell` (`Option.none` = currently taken by the flash device). -/
structure TicKVFlashCtrl where
  state : State
  data_buffer : Option (List Nat)
  region_offset : Nat
  deriving DecidableEq, Repr

/-- Rust's `for (i, d) in src.iter().enumerate() \x7b dst[i] = *d; \x7d`:
write `src` over the front of `dst`; panics (`Option.none`) when `src` is
longer than `dst`. -/
def copyInto (src dst : List Nat) : Option (List Nat) :=
  if src.length ≤ dst.length then some (src ++ dst.drop src.length) else Option.none

/-- `TicKVFlashCtrl::read_region`.  Returns the updated adapter, the page
operations issued to the flash device, the result handed back to the
engine, and the (possibly filled) output buffer; `Option.none` is a panic
(`data_buffer.take().unwrap()` on an empty cell, or the copy loop running
past the end of `buf`). -/
def read_region (c : TicKVFlashCtrl) (region_number : Nat) (_offset : Nat)
    (buf : List Nat) (hwOk : Bool) :
    Option (TicKVFlashCtrl × List FlashOp × CtrlResult × List Nat) :=
  match c.state with
  | State.readComplete reg =>
    if usizeOfIsize reg = region_number then
      -- We already have read the data: copy it out and reset the state.
      match c.data_buffer with
      | Option.none => Option.none
      | some db =>
        match copyInto db buf with
        | Option.none => Option.none
        | some filled =>
          some ({ c with state := State.none }, [], Except.ok (), filled)
    else
      match c.data_buffer with
      | Option.none => Option.none
      | some _ =>
        if hwOk then
          some ({ c with data_buffer := Option.none },
            [FlashOp.readPage (c.region_offset + region_number)],
            Except.error (ErrorCode.readNotReady region_number), buf)
        else
          some ({ c with data_buffer := Option.none },
            [FlashOp.readPage (c.region_offset + region_number)],
            Except.error ErrorCode.readFail, buf)
  | _ =>
    match c.data_buffer with
    | Option.none => Option.none
    | some _ =>
      if hwOk then
        some ({ c with data_buffer := Option.none },
          [FlashOp.readPage (c.region_offset + region_number)],
          Except.error (ErrorCode.readNotReady region_number), buf)
      else
        some ({ c with data_buffer := Option.none },
          [FlashOp.readPage (c.region_offset + region_number)],
          Except.error ErrorCode.readFail, buf)

/-- `TicKVFlashCtrl::write`: copy `buf` into the owned data buffer, issue a
page write at `(0x20040000 + address) / 1024`, and report `WriteNotReady`
on dispatch success or `WriteFail` on dispatch failure. -/
def write (c : TicKVFlashCtrl) (address : Nat) (buf : List Nat) (hwOk : Bool) :
    Option (TicKVFlashCtrl × List FlashOp × CtrlResult) :=
  match c.data_buffer with
  | Option.none => Option.none
  | some db =>
    match copyInto buf db with
    | Option.none => Option.none
    | some db2 =>
      if hwOk then
        some ({ c with data_buffer := Option.none },
          [FlashOp.writePage ((0x20040000 + address) / 1024) db2],
          Except.error (ErrorCode.writeNotReady address))
      else
        some ({ c with data_buffer := Option.none },
          [FlashOp.writePage ((0x20040000 + address) / 1024) db2],
          Except.error ErrorCode.writeFail)

/-- `TicKVFlashCtrl::erase_region`: issue a page erase (its dispatch result
is discarded by the source) and report `EraseNotReady`. -/
def erase_region (c : TicKVFlashCtrl) (region_number : Nat) :
    TicKVFlashCtrl × List FlashOp × CtrlResult :=
  (c, [FlashOp.erasePage (c.region_offset + region_number)],
    Except.error (ErrorCode.eraseNotReady region_number))

/-- Per-client grant state (`struct App`).  `callback` records whether a
`Callback` is registered in the `OptionalCell`. -/
structure App where
  callback : Bool
  key : Option (List Nat)
  key_len : Option Nat
  value : Option (List Nat)
  deriving DecidableEq, Repr

/-- `KVStoreDriver`: the adapter (`inner.tickv.controller`), the grant
region (`Option.none` at an id = `apps.enter` fails for that process),
the recorded owning client, and the in-flight logical operation. -/
structure KVStoreDriver where
  ctrl : TicKVFlashCtrl
  apps : Nat → Option App
  appid : Option Nat
  operation : Operation

/-- Functional update of one client's grant slot. -/
def setApp (apps : Nat → Option App) (id : Nat) (a : App) : Nat → Option App :=
  fun n => if n = id then some a else apps n

/-- `KVStoreDriver::update_state`: record the engine's pending-state answer
in the adapter; a success also retires the logical operation; any engine
error other than the three not-ready variants is `panic!` (`Option.none`). -/
def update_state (d : KVStoreDriver) (ret : EngineResult) : Option KVStoreDriver :=
  match ret with
  | Except.error (ErrorCode.readNotReady reg) =>
    -- Read isn't ready, save the state (the region is stored as an isize)
    some { d with ctrl := { d.ctrl with state := State.readComplete (isizeOfUsize reg) } }
  | Except.error (ErrorCode.eraseNotReady reg) =>
    -- Erase isn't ready, save the state
    some { d with ctrl := { d.ctrl with state := State.eraseComplete reg } }
  | Except.error (ErrorCode.writeNotReady reg) =>
    -- Write isn't ready, save the state
    some { d with ctrl := { d.ctrl with state := State.writeComplete reg } }
  | Except.ok _ =>
    some { d with operation := Operation.none,
                  ctrl := { d.ctrl with state := State.none } }
  | Except.error _ => Option.none

/-- `KVStoreDriver::initalise` (sic): `initRet` is the engine's answer to
`inner.initalise`; any result other than read/erase not-ready falls to the
catch-all and leaves the adapter state `None`. -/
def initalise (d : KVStoreDriver) (initRet : EngineResult) : KVStoreDriver :=
  let st := match initRet with
    | Except.error (ErrorCode.readNotReady reg) => State.readComplete (isizeOfUsize reg)
    | Except.error (ErrorCode.eraseNotReady reg) => State.eraseComplete reg
    | _ => State.none
  { d with ctrl := { d.ctrl with state := st }, operation := Operation.init }

/-- The body of `Client::read_complete` after the page buffer has been
put back (`d0` is the post-replace driver).  `engineRet` is the engine's
answer to `continue_operation`.  Returns the updated driver and the list
of client ids whose completion callback was scheduled; `Option.none` is a
panic (`unwrap` on an empty cell or a failed grant enter, `unreachable!`
when `operation` is `None`, or `panic!` inside `update_state`). -/
def read_complete_go (d0 : KVStoreDriver) (engineRet : EngineResult) :
    Option (KVStoreDriver × List Nat) :=
  match d0.operation with
  | Operation.init =>
    match update_state d0 engineRet with
    | Option.none => Option.none
    | some d1 =>
      match engineRet with
      | Except.ok _ => some ({ d1 with operation := Operation.none }, [])
      | Except.error _ => some (d1, [])
  | Operation.getKey =>
    -- data_buffer.take().unwrap() then replace: panics when empty, else a no-op
    match d0.ctrl.data_buffer with
    | Option.none => Option.none
    | some _ =>
      match d0.appid with
      | Option.none => some (d0, [])
      | some id =>
        match d0.apps id with
        | Option.none => Option.none
        | some app =>
          match app.key with
          | Option.none => some (d0, [])
          | some _key =>
            match app.value with
            | Option.none =>
              -- the key was taken but the inner if-let failed: the key
              -- buffer is dropped and never put back in the slot
              some ({ d0 with apps := setApp d0.apps id { app with key := Option.none } }, [])
            | some _value =>
              match app.key_len with
              | Option.none => Option.none
              | some _key_len =>
                match update_state d0 engineRet with
                | Option.none => Option.none
                | some d1 =>
                  -- key_len, value and key are restored unchanged afterwards
                  match engineRet with
                  | Except.ok _ =>
                    some ({ d1 with operation := Operation.none },
                      if app.callback then [id] else [])
                  | Except.error _ => some (d1, [])
  | Operation.none => Option.none

/-- `Client::read_complete`.  The hardware failure indicator `_error` is
ignored by the source.  The source first puts `pagebuffer` back into the
adapter's `data_buffer` (`replace`), then dispatches on `operation` —
embedded as `read_complete_go` applied to the post-replace driver. -/
def read_complete (d : KVStoreDriver) (pagebuffer : List Nat) (_error : Bool)
    (engineRet : EngineResult) : Option (KVStoreDriver × List Nat) :=
  read_complete_go
    { d with ctrl := { d.ctrl with data_buffer := some pagebuffer } } engineRet

/-- `Client::write_complete`: restore the page buffer, clear the adapter
state, and require `operation = Init` (`unreachable!` otherwise; the
buffer replace and state reset precede the match in the source, but they
are unobservable on the panicking branches). -/
def write_complete (d : KVStoreDriver) (pagebuffer : List Nat) (_error : Bool) :
    Option KVStoreDriver :=
  match d.operation with
  | Operation.init =>
    some { d with
      ctrl := { d.ctrl with data_buffer := some pagebuffer, state := State.none },
      operation := Operation.none }
  | _ => Option.none

/-- `Client::erase_complete`: require `operation = Init` (`unreachable!`
otherwise) and feed the engine's continuation answer to `update_state`. -/
def erase_complete (d : KVStoreDriver) (_error : Bool) (engineRet : EngineResult) :
    Option KVStoreDriver :=
  match d.operation with
  | Operation.init => update_state d engineRet
  | _ => Option.none

/-- `Driver::command`.  `engineRet` is the engine's answer to
`tickv.get_key` (consulted only on the accepted path of command 1).
Returns the updated driver, the synchronous `ReturnCode`, and the list of
client ids whose callback was scheduled during the call (the source
schedules none in `command`); `Option.none` is a panic — in particular the
slice `key.as_ref()[0..key_len]` when `key_len` exceeds the registered key
buffer's length.  In the busy branches the taken buffer is put back, so
the driver is returned unchanged. -/
def command (d : KVStoreDriver) (command_num : Nat) (key_len : Nat) (appid : Nat)
    (engineRet : EngineResult) : Option (KVStoreDriver × ReturnCode × List Nat) :=
  match command_num with
  | 0 => some (d, ReturnCode.SUCCESS, [])
  | 1 =>
    match d.apps appid with
    | Option.none => some (d, ReturnCode.FAIL, [])
    | some app =>
      match app.key with
      | Option.none => some (d, ReturnCode.EBUSY, [])
      | some key =>
        match app.value with
        | Option.none => some (d, ReturnCode.EBUSY, [])
        | some _value =>
          if key_len ≤ key.length then
            match update_state { d with
                appid := some appid,
                operation := Operation.getKey,
                apps := setApp d.apps appid { app with key_len := some key_len } }
              engineRet with
            | Option.none => Option.none
            | some d2 => some (d2, ReturnCode.SUCCESS, [])
          else Option.none
  | 2 => some (d, ReturnCode.SUCCESS, [])
  | 3 => some (d, ReturnCode.SUCCESS, [])
  | _ => some (d, ReturnCode.ENOSUPPORT, [])

/-- Does the adapter's cached state record a completed read of exactly this
region?  (The guard of `read_region`'s fast path.) -/
def cacheHit (c : TicKVFlashCtrl) (region_number : Nat) : Bool :=
  match c.state with
  | State.readComplete reg => decide (usizeOfIsize reg = region_number)
  | _ => false

section Fixtures

/-- A client slot with both buffers registered and a callback. -/
def appBoth : App :=
  { callback := true, key := some [1, 2, 3, 4], key_len := Option.none,
    value := some [0, 0, 0, 0] }

/-- A client slot with no key buffer registered. -/
def appNoKey : App :=
  { callback := true, key := Option.none, key_len := Option.none,
    value := some [0, 0, 0, 0] }

/-- A client slot whose key buffer is present but whose value buffer is
absent (with a key length recorded by an accepted request). -/
def appNoValue : App :=
  { callback := true, key := some [1], key_len := some 1, value := Option.none }

/-- An idle adapter holding a two-byte page buffer. -/
def ctrlIdle : TicKVFlashCtrl :=
  { state := State.none, data_buffer := some [10, 20], region_offset := 64 }

/-- A driver mid-initialization whose client 0 has both buffers. -/
def dInit : KVStoreDriver :=
  { ctrl := ctrlIdle, apps := fun n => if n = 0 then some appBoth else Option.none,
    appid := Option.none, operation := Operation.init }

/-- An idle driver whose client 0 has both buffers. -/
def dIdle : KVStoreDriver :=
  { ctrl := ctrlIdle, apps := fun n => if n = 0 then some appBoth else Option.none,
    appid := Option.none, operation := Operation.none }

/-- An idle driver whose client 0 has no key buffer. -/
def dNoKey : KVStoreDriver :=
  { ctrl := ctrlIdle, apps := fun n => if n = 0 then some appNoKey else Option.none,
    appid := Option.none, operation := Operation.none }

/-- A driver with a get-key in flight for client 0 whose value buffer has
since been deregistered. -/
def dNoValue : KVStoreDriver :=
  { ctrl := { state := State.readComplete 64, data_buffer := Option.none, region_offset := 64 },
    apps := fun n => if n = 0 then some appNoValue else Option.none,
    appid := some 0, operation := Operation.getKey }

/-- A client slot with both buffers, a recorded key length and a
callback. -/
def appFull : App :=
  { callback := true, key := some [1, 2, 3, 4], key_len := some 4,
    value := some [0, 0, 0, 0] }

/-- A driver with a get-key in flight for client 0, all state present. -/
def dGetKey : KVStoreDriver :=
  { ctrl := { state := State.readComplete 3, data_buffer := Option.none, region_offset := 64 },
    apps := fun n => if n = 0 then some appFull else Option.none,
    appid := some 0, operation := Operation.getKey }

end Fixtures

/-- C5: `read_region(region, offset, out_buffer)` copies the cached page
into the output buffer, resets the cached state and returns success when
the cached state records a completed read of exactly that region; in every
other case it issues a hardware page read for the region and returns
`ReadNotReady(region)`, or `ReadFail` when the hardware rejects the
dispatch. -/
theorem read_region_cached_or_issue (c : TicKVFlashCtrl) (rn off : Nat)
    (buf db : List Nat) (hw : Bool)
    (hdb : c.data_buffer = some db) (hlen : db.length ≤ buf.length) :
    (cacheHit c rn = true →
      read_region c rn off buf hw =
        some ({ c with state := State.none }, [], Except.ok (), db ++ buf.drop db.length)) ∧
    (cacheHit c rn = false →
      read_region c rn off buf hw =
        some ({ c with data_buffer := Option.none },
          [FlashOp.readPage (c.region_offset + rn)],
          if hw then Except.error (ErrorCode.readNotReady rn)
          else Except.error ErrorCode.readFail,
          buf)) := by
  constructor <;> intro hhit <;>
    cases hst : c.state <;>
    simp [cacheHit, hst] at hhit <;>
    cases hw <;>
    simp [read_region, hst, hdb, copyInto, hlen, hhit]

/-- An adapter whose cached state records a completed read of region 3. -/
def ctrlHit3 : TicKVFlashCtrl :=
  { state := State.readComplete 3, data_buffer := some [10, 20], region_offset := 64 }

/-- Closed witness for `read_region_cached_or_issue`: a hit on region 3 and
a miss on region 5 against a concrete adapter. -/
theorem read_region_cached_or_issue_witness :
    (ctrlHit3.data_buffer = some [10, 20] ∧
      ([10, 20] : List Nat).length ≤ ([0, 0, 0] : List Nat).length) ∧
    (read_region ctrlHit3 3 0 [0, 0, 0] true =
      some ({ ctrlHit3 with state := State.none }, [], Except.ok (), [10, 20, 0])) ∧
    (read_region ctrlHit3 5 0 [0, 0, 0] true =
      some ({ ctrlHit3 with data_buffer := Option.none },
        [FlashOp.readPage 69], Except.error (ErrorCode.readNotReady 5), [0, 0, 0])) := by
  have h1 := read_region_cached_or_issue ctrlHit3 3 0 [0, 0, 0] [10, 20] true rfl (by decide)
  have h2 := read_region_cached_or_issue ctrlHit3 5 0 [0, 0, 0] [10, 20] true rfl (by decide)
  refine ⟨⟨rfl, by decide⟩, ?_, ?_⟩
  · have := h1.1 (by decide)
    simpa using this
  · have := h2.2 (by decide)
    simpa using this

/-- C6 counterexample: when the hardware rejects the dispatch of a page
write, `write` returns `WriteFail`, not the claimed `NotReady(address)`. -/
theorem write_dispatch_failure_counterexample :
    (write ctrlIdle 5 [1, 2] false).map (fun r => r.2.2) =
      some (Except.error ErrorCode.writeFail) ∧
    (Except.error ErrorCode.writeFail : CtrlResult) ≠
      Except.error (ErrorCode.writeNotReady 5) := by
  constructor
  · rfl
  · simp

/-- C6 (amended): `write(address, bytes)` copies `bytes` into the owned
data buffer, issues a hardware page write at `(0x20040000 + address) /
1024`, and returns `WriteNotReady(address)` when the dispatch succeeds but
`WriteFail` when the hardware rejects it; `erase_region(region)` issues a
page erase and returns `EraseNotReady(region)` in all cases; neither
operation ever returns synchronous success. -/
theorem write_erase_always_async (c : TicKVFlashCtrl) (a rn : Nat)
    (buf db : List Nat) (hw : Bool)
    (hdb : c.data_buffer = some db) (hlen : buf.length ≤ db.length) :
    write c a buf hw =
      some ({ c with data_buffer := Option.none },
        [FlashOp.writePage ((0x20040000 + a) / 1024) (buf ++ db.drop buf.length)],
        if hw then Except.error (ErrorCode.writeNotReady a)
        else Except.error ErrorCode.writeFail) ∧
    erase_region c rn =
      (c, [FlashOp.erasePage (c.region_offset + rn)],
        Except.error (ErrorCode.eraseNotReady rn)) ∧
    (∀ res, write c a buf hw = some res → res.2.2 ≠ Except.ok ()) ∧
    (erase_region c rn).2.2 ≠ Except.ok () := by
  have hw' : write c a buf hw =
      some ({ c with data_buffer := Option.none },
        [FlashOp.writePage ((0x20040000 + a) / 1024) (buf ++ db.drop buf.length)],
        if hw then Except.error (ErrorCode.writeNotReady a)
        else Except.error ErrorCode.writeFail) := by
    cases hw <;> simp [write, hdb, copyInto, hlen]
  refine ⟨hw', rfl, ?_, by simp [erase_region]⟩
  intro res hres
  rw [hw'] at hres
  cases hres
  cases hw <;> simp

/-- Closed witness for `write_erase_always_async` at a concrete adapter,
address 7 and region 5. -/
theorem write_erase_always_async_witness :
    (ctrlIdle.data_buffer = some [10, 20] ∧
      ([1, 2] : List Nat).length ≤ ([10, 20] : List Nat).length) ∧
    write ctrlIdle 7 [1, 2] true =
      some ({ ctrlIdle with data_buffer := Option.none },
        [FlashOp.writePage 524544 [1, 2]],
        Except.error (ErrorCode.writeNotReady 7)) ∧
    erase_region ctrlIdle 5 =
      (ctrlIdle, [FlashOp.erasePage (ctrlIdle.region_offset + 5)],
        Except.error (ErrorCode.eraseNotReady 5)) := by
  have h := write_erase_always_async ctrlIdle 7 5 [1, 2] [10, 20] true rfl (by decide)
  refine ⟨⟨rfl, by decide⟩, ?_, h.2.1⟩
  have := h.1
  simpa using this

/-- C9: every hardware page operation the adapter issues uses the fixed
address map — `read_region`/`erase_region` target page
`region_offset + region_number`, and `write` targets page
`(0x20040000 + address) / 1024`. -/
theorem flash_addressing (c : TicKVFlashCtrl) (rn off a : Nat)
    (buf : List Nat) (hw : Bool) :
    (∀ res, read_region c rn off buf hw = some res →
      res.2.1 = [] ∨ res.2.1 = [FlashOp.readPage (c.region_offset + rn)]) ∧
    (erase_region c rn).2.1 = [FlashOp.erasePage (c.region_offset + rn)] ∧
    (∀ res, write c a buf hw = some res →
      ∃ data, res.2.1 = [FlashOp.writePage ((0x20040000 + a) / 1024) data]) := by
  refine ⟨?_, rfl, ?_⟩
  · intro res hres
    unfold read_region at hres
    cases hst : c.state <;> rw [hst] at hres <;>
      cases hbuf : c.data_buffer <;> rw [hbuf] at hres <;>
      simp at hres
    case readComplete.some reg _ =>
      by_cases hreg : usizeOfIsize reg = rn
      · rw [if_pos hreg] at hres
        cases hcp : copyInto _ buf <;> rw [hcp] at hres <;> simp at hres
        left
        rw [← hres]
      · rw [if_neg hreg] at hres
        cases hw <;> simp at hres <;> right <;> rw [← hres]
    all_goals cases hw <;> simp at hres <;> right <;> rw [← hres]
  · intro res hres
    unfold write at hres
    cases hbuf : c.data_buffer <;> rw [hbuf] at hres <;> simp at hres
    case some db =>
      cases hcp : copyInto buf db <;> rw [hcp] at hres <;> simp at hres
      case some db2 =>
        cases hw <;> simp at hres <;> exact ⟨db2, by rw [← hres]⟩

/-- Closed witness for `flash_addressing`: concrete read, erase and write
dispatches against `ctrlIdle` (`region_offset = 64`). -/
theorem flash_addressing_witness :
    (([FlashOp.readPage 69] : List FlashOp) = [] ∨
      ([FlashOp.readPage 69] : List FlashOp) = [FlashOp.readPage (ctrlIdle.region_offset + 5)]) ∧
    (erase_region ctrlIdle 5).2.1 = [FlashOp.erasePage (ctrlIdle.region_offset + 5)] ∧
    (∃ data, ([FlashOp.writePage 524544 [1, 2]] : List FlashOp) =
      [FlashOp.writePage ((0x20040000 + 7) / 1024) data]) := by
  have h := flash_addressing ctrlIdle 5 0 7 [1, 2] true
  refine ⟨?_, h.2.1, ?_⟩
  · exact h.1 ({ ctrlIdle with data_buffer := Option.none },
      [FlashOp.readPage 69], Except.error (ErrorCode.readNotReady 5), [1, 2]) rfl
  · exact h.2.2 ({ ctrlIdle with data_buffer := Option.none },
      [FlashOp.writePage 524544 [1, 2]], Except.error (ErrorCode.writeNotReady 7)) rfl

/-- C1 counterexample: a get-by-key request issued while `Operation = Init`
(not `None`) by a client with both buffers registered is accepted with
SUCCESS — not rejected busy — and it overwrites `Operation` and the
recorded owning client. -/
theorem busy_not_enforced_counterexample :
    dInit.operation ≠ Operation.none ∧
    (command dInit 1 2 0 (Except.error (ErrorCode.readNotReady 0))).map (fun r => r.2.1) =
      some ReturnCode.SUCCESS ∧
    (command dInit 1 2 0 (Except.error (ErrorCode.readNotReady 0))).map (fun r => r.1.operation) =
      some Operation.getKey ∧
    (command dInit 1 2 0 (Except.error (ErrorCode.readNotReady 0))).map (fun r => r.1.appid) =
      some (some 0) ∧
    ReturnCode.SUCCESS ≠ ReturnCode.EBUSY := by
  refine ⟨by decide, rfl, rfl, rfl, by decide⟩

/-- C1 (amended): the get-by-key path never consults `Operation`; the busy
status is returned exactly when the requesting client's key buffer or
value buffer is missing, and such a rejected request returns the driver
unchanged; with both buffers registered (and `key_len` in bounds) the
request is accepted regardless of `Operation`, overwriting `Operation`,
the owning client and the pending flash state. -/
theorem busy_iff_missing_buffer (d : KVStoreDriver) (id klen n : Nat) (app : App)
    (happ : d.apps id = some app) :
    ((app.key = Option.none ∨ app.value = Option.none) →
      command d 1 klen id (Except.error (ErrorCode.readNotReady n)) =
        some (d, ReturnCode.EBUSY, [])) ∧
    (∀ k v, app.key = some k → app.value = some v → klen ≤ k.length →
      command d 1 klen id (Except.error (ErrorCode.readNotReady n)) =
        some ({ d with
            appid := some id,
            operation := Operation.getKey,
            apps := setApp d.apps id { app with key_len := some klen },
            ctrl := { d.ctrl with state := State.readComplete (isizeOfUsize n) } },
          ReturnCode.SUCCESS, [])) := by
  constructor
  · rintro (hk | hv)
    · simp [command, happ, hk]
    · cases hk : app.key <;> simp [command, happ, hk, hv]
  · intro k v hk hv hlen
    simp [command, happ, hk, hv, hlen, update_state]

/-- Closed witness for `busy_iff_missing_buffer`: a busy rejection for a
client with no key buffer, and an acceptance while `Operation = Init`. -/
theorem busy_iff_missing_buffer_witness :
    (dNoKey.apps 0 = some appNoKey ∧ appNoKey.key = Option.none) ∧
    command dNoKey 1 1 0 (Except.error (ErrorCode.readNotReady 2)) =
      some (dNoKey, ReturnCode.EBUSY, []) ∧
    (dInit.apps 0 = some appBoth ∧ appBoth.key = some [1, 2, 3, 4] ∧
      appBoth.value = some [0, 0, 0, 0] ∧ 2 ≤ ([1, 2, 3, 4] : List Nat).length) ∧
    command dInit 1 2 0 (Except.error (ErrorCode.readNotReady 2)) =
      some ({ dInit with
          appid := some 0,
          operation := Operation.getKey,
          apps := setApp dInit.apps 0 { appBoth with key_len := some 2 },
          ctrl := { dInit.ctrl with state := State.readComplete (isizeOfUsize 2) } },
        ReturnCode.SUCCESS, []) := by
  refine ⟨⟨rfl, rfl⟩, ?_, ⟨rfl, rfl, rfl, by decide⟩, ?_⟩
  · exact (busy_iff_missing_buffer dNoKey 0 1 2 appNoKey rfl).1 (Or.inl rfl)
  · exact (busy_iff_missing_buffer dInit 0 2 2 appBoth rfl).2
      [1, 2, 3, 4] [0, 0, 0, 0] rfl rfl (by decide)

/-- C7 counterexample: a get-by-key by a client with no key buffer
registered returns EBUSY (the busy status), not FAIL (the failure
status). -/
theorem missing_buffer_busy_counterexample :
    command dNoKey 1 1 0 (Except.error (ErrorCode.readNotReady 0)) =
      some (dNoKey, ReturnCode.EBUSY, []) ∧
    ReturnCode.EBUSY ≠ ReturnCode.FAIL := by
  exact ⟨rfl, by decide⟩

/-- C7 (amended): a get-by-key by a client whose key or value buffer is
not registered returns the busy status EBUSY; the failure status FAIL is
returned only when the client's grant cannot be entered at all. -/
theorem status_vocabulary_missing_buffer (d : KVStoreDriver) (id klen : Nat)
    (r : EngineResult) :
    (∀ app, d.apps id = some app →
      app.key = Option.none ∨ app.value = Option.none →
      command d 1 klen id r = some (d, ReturnCode.EBUSY, [])) ∧
    (d.apps id = Option.none →
      command d 1 klen id r = some (d, ReturnCode.FAIL, [])) := by
  constructor
  · rintro app happ (hk | hv)
    · simp [command, happ, hk]
    · cases hk : app.key <;> simp [command, happ, hk, hv]
  · intro happ
    simp [command, happ]

/-- Closed witness for `status_vocabulary_missing_buffer`: client 0 of
`dNoKey` has no key buffer (busy), client 7 has no grant (failure). -/
theorem status_vocabulary_missing_buffer_witness :
    (dNoKey.apps 0 = some appNoKey ∧ appNoKey.value = some [0, 0, 0, 0]) ∧
    command dNoKey 1 3 0 (Except.ok SuccessCode.complete) =
      some (dNoKey, ReturnCode.EBUSY, []) ∧
    (dNoKey.apps 7 = Option.none) ∧
    command dNoKey 1 3 7 (Except.ok SuccessCode.complete) =
      some (dNoKey, ReturnCode.FAIL, []) := by
  refine ⟨⟨rfl, rfl⟩, ?_, rfl, ?_⟩
  · exact (status_vocabulary_missing_buffer dNoKey 0 3 (Except.ok SuccessCode.complete)).1
      appNoKey rfl (Or.inl rfl)
  · exact (status_vocabulary_missing_buffer dNoKey 7 3 (Except.ok SuccessCode.complete)).2 rfl

/-- C2 (code bug): a get-by-key whose `key_len` (here 5) exceeds the
registered key buffer's length (here 4) is not rejected with an error
status — the slice `key.as_ref()[0..key_len]` panics (`Option.none`),
before any engine call. -/
theorem get_key_oob_key_len_panics :
    appBoth.key = some [1, 2, 3, 4] ∧
    ¬ 5 ≤ ([1, 2, 3, 4] : List Nat).length ∧
    command dIdle 1 5 0 (Except.error (ErrorCode.readNotReady 0)) = Option.none := by
  refine ⟨rfl, by decide, rfl⟩

/-- C3 counterexample: a read completion carrying the hardware failure
indicator, received mid-initialization, is processed exactly like a
successful completion — the Engine's continuation result is applied and
the operation completes (`Operation` is retired to `None`) instead of the
failure being propagated and the operation halted. -/
theorem hw_failure_resumes_normally_counterexample :
    read_complete dInit [9, 9] true (Except.ok SuccessCode.complete) =
      read_complete dInit [9, 9] false (Except.ok SuccessCode.complete) ∧
    (read_complete dInit [9, 9] true (Except.ok SuccessCode.complete)).map
      (fun r => r.1.operation) = some Operation.none := by
  exact ⟨rfl, rfl⟩

/-- C3 (amended): every completion notification ignores its hardware
failure indicator entirely — a failed read, write or erase completion is
handled identically to a successful one, and the Engine's continuation is
resumed as if the hardware operation had succeeded. -/
theorem hw_error_indicator_ignored (d : KVStoreDriver) (pb : List Nat)
    (r : EngineResult) :
    read_complete d pb true r = read_complete d pb false r ∧
    write_complete d pb true = write_complete d pb false ∧
    erase_complete d true r = erase_complete d false r := by
  exact ⟨rfl, rfl, rfl⟩

/-- C8: any completion notification received while `Operation = None`
panics (`unreachable!`), and `update_state` panics (`panic!`) on every
engine error that is not one of the three not-ready outcomes. -/
theorem unexpected_completion_or_error_panics (d : KVStoreDriver) (pb : List Nat)
    (e : Bool) (r : EngineResult) (ec : ErrorCode) :
    (d.operation = Operation.none →
      read_complete d pb e r = Option.none ∧
      write_complete d pb e = Option.none ∧
      erase_complete d e r = Option.none) ∧
    ((∀ m, ec ≠ ErrorCode.readNotReady m) →
      (∀ m, ec ≠ ErrorCode.writeNotReady m) →
      (∀ m, ec ≠ ErrorCode.eraseNotReady m) →
      update_state d (Except.error ec) = Option.none) := by
  constructor
  · intro hop
    refine ⟨?_, ?_, ?_⟩ <;>
      simp [read_complete, read_complete_go, write_complete, erase_complete, hop]
  · intro h1 h2 h3
    cases ec
    case readNotReady m => exact absurd rfl (h1 m)
    case writeNotReady m => exact absurd rfl (h2 m)
    case eraseNotReady m => exact absurd rfl (h3 m)
    all_goals rfl

/-- Closed witness for `unexpected_completion_or_error_panics`: completions
against the idle driver and a `KeyNotFound` engine error. -/
theorem unexpected_completion_or_error_panics_witness :
    dIdle.operation = Operation.none ∧
    read_complete dIdle [1] false (Except.ok SuccessCode.complete) = Option.none ∧
    write_complete dIdle [1] false = Option.none ∧
    erase_complete dIdle false (Except.ok SuccessCode.complete) = Option.none ∧
    update_state dIdle (Except.error ErrorCode.keyNotFound) = Option.none := by
  have h := unexpected_completion_or_error_panics dIdle [1] false
    (Except.ok SuccessCode.complete) ErrorCode.keyNotFound
  have h1 := h.1 rfl
  refine ⟨rfl, h1.1, h1.2.1, h1.2.2, ?_⟩
  exact h.2 (fun m hm => ErrorCode.noConfusion hm)
    (fun m hm => ErrorCode.noConfusion hm) (fun m hm => ErrorCode.noConfusion hm)

/-- C4 counterexample: a get-by-key accepted with SUCCESS whose engine call
finishes synchronously (`Ok`) schedules no callback during the request,
retires `Operation` to `None`, and any later completion notification
panics — so no callback is ever delivered for that accepted request. -/
theorem sync_completion_no_callback_counterexample :
    (command dIdle 1 2 0 (Except.ok SuccessCode.complete)).map
      (fun r => (r.2.1, r.2.2)) = some (ReturnCode.SUCCESS, ([] : List Nat)) ∧
    (command dIdle 1 2 0 (Except.ok SuccessCode.complete)).map
      (fun r => r.1.operation) = some Operation.none ∧
    (command dIdle 1 2 0 (Except.ok SuccessCode.complete)).bind
      (fun r => read_complete r.1 [3, 4] false (Except.ok SuccessCode.complete)) =
      Option.none := by
  exact ⟨rfl, rfl, rfl⟩

/-- C4 (amended): `command` itself never schedules a callback; a single
`read_complete` schedules at most one callback; and when a get-key in
flight completes through a read completion with the owning client's key,
value, key length and callback all present and the engine reporting
success, exactly one callback is delivered, to that client. -/
theorem callback_delivery (d : KVStoreDriver) (pb : List Nat) (e : Bool)
    (s : SuccessCode) (cn kl id : Nat) (r : EngineResult) (app : App)
    (k v : List Nat) (n : Nat) :
    (∀ res, command d cn kl id r = some res → res.2.2 = []) ∧
    (∀ d0 res, read_complete_go d0 r = some res → res.2.length ≤ 1) ∧
    (d.operation = Operation.getKey → d.appid = some id → d.apps id = some app →
      app.callback = true → app.key = some k → app.value = some v →
      app.key_len = some n →
      read_complete d pb e (Except.ok s) =
        some ({ d with
            operation := Operation.none,
            ctrl := { d.ctrl with data_buffer := some pb, state := State.none } },
          [id])) := by
  refine ⟨?_, ?_, ?_⟩
  · intro res hres
    unfold command at hres
    repeat' split at hres
    all_goals cases hres
    all_goals rfl
  · intro d0 res hres
    unfold read_complete_go at hres
    repeat' split at hres
    all_goals cases hres
    all_goals simp
  · intro hop hid happ hcb hk hv hkl
    simp [read_complete, read_complete_go, hop, hid, happ, hk, hv, hkl, hcb, update_state]

/-- Closed witness for `callback_delivery`: a concrete rejected command, a
concrete completion, and the exactly-one-callback completion for
`dGetKey`'s client 0. -/
theorem callback_delivery_witness :
    (dGetKey.operation = Operation.getKey ∧ dGetKey.appid = some 0 ∧
      dGetKey.apps 0 = some appFull ∧ appFull.callback = true ∧
      appFull.key = some [1, 2, 3, 4] ∧ appFull.value = some [0, 0, 0, 0] ∧
      appFull.key_len = some 4) ∧
    ((dGetKey, ReturnCode.SUCCESS, ([] : List Nat)).2.2 = []) ∧
    ((({ dGetKey with
        operation := Operation.none,
        ctrl := { dGetKey.ctrl with data_buffer := some [7, 8], state := State.none } },
      ([0] : List Nat)) : KVStoreDriver × List Nat).2.length ≤ 1) ∧
    read_complete dGetKey [7, 8] false (Except.ok SuccessCode.complete) =
      some ({ dGetKey with
          operation := Operation.none,
          ctrl := { dGetKey.ctrl with data_buffer := some [7, 8], state := State.none } },
        [0]) := by
  have h := callback_delivery dGetKey [7, 8] false SuccessCode.complete 2 0 0
    (Except.ok SuccessCode.complete) appFull [1, 2, 3, 4] [0, 0, 0, 0] 4
  have h3 := h.2.2 rfl rfl rfl rfl rfl rfl rfl
  refine ⟨⟨rfl, rfl, rfl, rfl, rfl, rfl, rfl⟩, ?_, ?_, h3⟩
  · exact h.1 (dGetKey, ReturnCode.SUCCESS, []) rfl
  · exact h.2.1 _ _ h3

/-- C10 counterexample: when a read completion arrives for a get-key whose
owning client has a key buffer but no value buffer, the driver does not
leave the client's slot untouched — it takes the key buffer and drops it,
removing it from the grant slot. -/
theorem getkey_completion_drops_key_counterexample :
    appNoValue.key = some [1] ∧
    (read_complete dNoValue [7] false (Except.ok SuccessCode.complete)).map
      (fun r => r.1.apps 0) = some (some { appNoValue with key := Option.none }) ∧
    (some { appNoValue with key := Option.none } : Option App) ≠ some appNoValue := by
  refine ⟨rfl, rfl, by decide⟩

/-- C10 (amended): a read completion while `Operation = GetKey` with the
owning client's key or value buffer missing invokes no engine
continuation (the outcome is independent of the engine oracle), delivers
no callback, and leaves the cached state and `Operation = GetKey`
unchanged; but it does not always leave the client slot untouched — when
the key buffer is present and the value buffer absent, the key buffer is
dropped from the slot (only when the key buffer itself is missing is the
slot unchanged). -/
theorem getkey_completion_missing_buffers (d : KVStoreDriver) (pb : List Nat)
    (e : Bool) (r1 r2 : EngineResult) (id : Nat) (app : App)
    (hop : d.operation = Operation.getKey) (hid : d.appid = some id)
    (happ : d.apps id = some app)
    (hmiss : app.key = Option.none ∨ app.value = Option.none) :
    read_complete d pb e r1 = read_complete d pb e r2 ∧
    (∀ res, read_complete d pb e r1 = some res →
      res.2 = [] ∧ res.1.operation = Operation.getKey ∧
      res.1.ctrl.state = d.ctrl.state ∧
      (app.key = Option.none → res.1.apps id = some app) ∧
      (∀ k, app.key = some k →
        res.1.apps id = some { app with key := Option.none })) := by
  rcases hmiss with hk | hv
  · constructor
    · simp [read_complete, read_complete_go, hop, hid, happ, hk]
    · intro res hres
      simp [read_complete, read_complete_go, hop, hid, happ, hk] at hres
      subst hres
      refine ⟨rfl, rfl, rfl, fun _ => happ, ?_⟩
      intro k hk'
      rw [hk] at hk'
      exact Option.noConfusion hk'
  · cases hk : app.key with
    | none =>
      constructor
      · simp [read_complete, read_complete_go, hop, hid, happ, hk]
      · intro res hres
        simp [read_complete, read_complete_go, hop, hid, happ, hk] at hres
        subst hres
        refine ⟨rfl, rfl, rfl, fun _ => happ, ?_⟩
        intro k hk'
        exact Option.noConfusion hk'
    | some k0 =>
      constructor
      · simp [read_complete, read_complete_go, hop, hid, happ, hk, hv]
      · intro res hres
        simp [read_complete, read_complete_go, hop, hid, happ, hk, hv] at hres
        subst hres
        refine ⟨rfl, rfl, rfl, ?_, ?_⟩
        · intro h
          exact Option.noConfusion h
        · intro k hk'
          simp [setApp, hv]

/-- Closed witness for `getkey_completion_missing_buffers` at `dNoValue`
(client 0 has a key buffer but no value buffer). -/
theorem getkey_completion_missing_buffers_witness :
    (dNoValue.operation = Operation.getKey ∧ dNoValue.appid = some 0 ∧
      dNoValue.apps 0 = some appNoValue ∧ appNoValue.value = Option.none) ∧
    read_complete dNoValue [7] false (Except.ok SuccessCode.complete) =
      read_complete dNoValue [7] false (Except.error ErrorCode.keyNotFound) ∧
    (read_complete dNoValue [7] false (Except.ok SuccessCode.complete)).map
      (fun r => (r.2, r.1.operation, r.1.ctrl.state, r.1.apps 0)) =
      some (([] : List Nat), Operation.getKey, dNoValue.ctrl.state,
        some { appNoValue with key := Option.none }) := by
  have h := getkey_completion_missing_buffers dNoValue [7] false
    (Except.ok SuccessCode.complete) (Except.error ErrorCode.keyNotFound) 0 appNoValue
    rfl rfl rfl (Or.inr rfl)
  refine ⟨⟨rfl, rfl, rfl, rfl⟩, h.1, ?_⟩
  rfl

end KVStore
